import Mathlib

/-!
Verification development for the QuEST MPI distribution layer
(`src/QuEST/qubits_env_mpi.c`).

The C source is shallowly embedded below.  Machine integers (`int`,
`long long int`) are modelled as `Nat` (all quantities involved are
non-negative and far from overflow in every use site); the floating
point scalar `REAL` is modelled as `ℚ`; the chunk-pair id, which is
formed by a subtraction, is modelled as `Int`.  The gate dispatch
functions do not contain the numeric kernels (those live in `qubits.c`,
outside the sources given here), so each dispatcher is embedded as a
function producing the exact sequence of kernel invocations and shard
exchanges it performs, with all arguments recorded.  Where a claim needs
the semantics of a kernel that is not part of the given sources, the
kernel is modelled from the specification and marked as such in its
doc comment.  The leading `QuESTAssert` validation calls of the gate
dispatchers delegate to validators defined outside the given sources
and abort the whole program on failure; the dispatch bodies are
embedded for the post-validation behaviour, except for
`collapseToOutcome`, whose error-8 assertion is part of the given
source and is embedded explicitly.
-/

namespace QuEST

/-- QuEST complex scalar: a pair of `REAL` components (modelled as `ℚ`). -/
structure Complex where
  real : ℚ
  imag : ℚ
deriving DecidableEq

/-- QuEST 2x2 complex matrix, fields named by row and column. -/
structure ComplexMatrix2 where
  r0c0 : Complex
  r0c1 : Complex
  r1c0 : Complex
  r1c1 : Complex
deriving DecidableEq

/-- The two parallel arrays of real and imaginary amplitude parts of one shard. -/
structure StateVec where
  real : List ℚ
  imag : List ℚ
deriving DecidableEq

/-- The per-rank view of a distributed state vector: `numAmps` is the number
of amplitudes per chunk, `chunkId` the rank of this shard, `stateVec` the
local shard and `pairStateVec` the scratch buffer for a peer shard. -/
structure MultiQubit where
  numQubits : ℕ
  numAmps : ℕ
  chunkId : ℕ
  stateVec : StateVec
  pairStateVec : StateVec
deriving DecidableEq

/-! Index arithmetic (lines 146-237 and 650-657 of the source). -/

/-- Embedding of `chunkIsUpper` (source lines 146-152): true when the chunk
lies in the upper half of a block for the rotated qubit. -/
def chunkIsUpper (chunkId : ℕ) (chunkSize : ℕ) (rotQubit : ℕ) : Bool :=
  let sizeHalfBlock := 2 ^ rotQubit
  let sizeBlock := sizeHalfBlock * 2
  let posInBlock := (chunkId * chunkSize) % sizeBlock
  decide (posInBlock < sizeHalfBlock)

/-- Embedding of `getRotAngle` (source lines 167-177): derives the pair
`(rot1, rot2)` from `(alpha, beta)` according to the upper/lower position. -/
def getRotAngle (chunkIsUpper : Bool) (alpha beta : Complex) : Complex × Complex :=
  if chunkIsUpper then
    (alpha, { real := -beta.real, imag := -beta.imag })
  else
    (beta, alpha)

/-- Embedding of `getRotAngleFromUnitaryMatrix` (source lines 192-201). -/
def getRotAngleFromUnitaryMatrix (chunkIsUpper : Bool) (u : ComplexMatrix2) :
    Complex × Complex :=
  if chunkIsUpper then (u.r0c0, u.r0c1) else (u.r1c0, u.r1c1)

/-- Embedding of `getChunkPairId` (source lines 213-222). -/
def getChunkPairId (chunkIsUpper : Bool) (chunkId : ℕ) (chunkSize : ℕ)
    (rotQubit : ℕ) : ℤ :=
  let sizeHalfBlock := 2 ^ rotQubit
  let chunksPerHalfBlock := sizeHalfBlock / chunkSize
  if chunkIsUpper then
    (chunkId : ℤ) + chunksPerHalfBlock
  else
    (chunkId : ℤ) - chunksPerHalfBlock

/-- Embedding of `halfMatrixBlockFitsInChunk` (source lines 232-237). -/
def halfMatrixBlockFitsInChunk (chunkSize : ℕ) (rotQubit : ℕ) : Bool :=
  let sizeHalfBlock := 2 ^ rotQubit
  decide (sizeHalfBlock < chunkSize)

/-- Embedding of `isChunkToSkipInFindPZero` (source lines 650-657).  The C
function returns the int `chunkId & numChunksToSkip`, used for its
truthiness; the embedding returns the corresponding boolean. -/
def isChunkToSkipInFindPZero (chunkId : ℕ) (chunkSize : ℕ)
    (measureQubit : ℕ) : Bool :=
  let sizeHalfBlock := 2 ^ measureQubit
  let numChunksToSkip := sizeHalfBlock / chunkSize
  let bitToCheck := chunkId &&& numChunksToSkip
  decide (bitToCheck ≠ 0)

/-! Gate dispatch traces.  Each dispatcher returns the list of external
calls it makes, in order, with all arguments recorded. -/

/-- Names of the two shard buffers that can be passed to a distributed kernel. -/
inductive Buf where
  | stateVec
  | pairStateVec
deriving DecidableEq

/-- One external call made by a dispatcher: a shard exchange with the peer
rank, or a local/distributed kernel invocation with its full argument list. -/
inductive Action where
  | exchangeStateVectors (pairRank : ℤ)
  | compactUnitaryLocal (rotQubit : ℕ) (alpha beta : Complex)
  | compactUnitaryDistributed (rotQubit : ℕ) (rot1 rot2 : Complex)
      (upper lower out : Buf)
  | unitaryLocal (rotQubit : ℕ) (u : ComplexMatrix2)
  | unitaryDistributed (rotQubit : ℕ) (rot1 rot2 : Complex)
      (upper lower out : Buf)
  | controlledCompactUnitaryLocal (rotQubit controlQubit : ℕ) (alpha beta : Complex)
  | controlledCompactUnitaryDistributed (rotQubit controlQubit : ℕ)
      (rot1 rot2 : Complex) (upper lower out : Buf)
  | controlledUnitaryLocal (rotQubit controlQubit : ℕ) (u : ComplexMatrix2)
  | controlledUnitaryDistributed (rotQubit controlQubit : ℕ)
      (rot1 rot2 : Complex) (upper lower out : Buf)
  | multiControlledUnitaryLocal (rotQubit : ℕ) (mask : ℕ) (u : ComplexMatrix2)
  | multiControlledUnitaryDistributed (rotQubit : ℕ) (mask : ℕ)
      (rot1 rot2 : Complex) (upper lower out : Buf)
  | sigmaXLocal (rotQubit : ℕ)
  | sigmaXDistributed (rotQubit : ℕ) (inBuf outBuf : Buf)
  | controlledNotLocal (controlQubit rotQubit : ℕ)
  | controlledNotDistributed (controlQubit rotQubit : ℕ) (inBuf outBuf : Buf)
  | sigmaYLocal (rotQubit : ℕ)
  | sigmaYDistributed (rotQubit : ℕ) (inBuf outBuf : Buf) (rankIsUpper : Bool)
  | hadamardLocal (rotQubit : ℕ)
  | hadamardDistributed (rotQubit : ℕ) (upper lower out : Buf) (rankIsUpper : Bool)
  | phaseGateLocal (rotQubit : ℕ) (gateType : ℕ)
  | phaseGateDistributed (rotQubit : ℕ) (gateType : ℕ)
deriving DecidableEq

/-- Embedding of the dispatch body of `compactUnitary` (source lines 271-309). -/
def compactUnitary (mq : MultiQubit) (rotQubit : ℕ) (alpha beta : Complex) :
    List Action :=
  if halfMatrixBlockFitsInChunk mq.numAmps rotQubit then
    [Action.compactUnitaryLocal rotQubit alpha beta]
  else
    let rankIsUpper := chunkIsUpper mq.chunkId mq.numAmps rotQubit
    let rot := getRotAngle rankIsUpper alpha beta
    let pairRank := getChunkPairId rankIsUpper mq.chunkId mq.numAmps rotQubit
    if rankIsUpper then
      [Action.exchangeStateVectors pairRank,
       Action.compactUnitaryDistributed rotQubit rot.1 rot.2
         Buf.stateVec Buf.pairStateVec Buf.stateVec]
    else
      [Action.exchangeStateVectors pairRank,
       Action.compactUnitaryDistributed rotQubit rot.1 rot.2
         Buf.pairStateVec Buf.stateVec Buf.stateVec]

/-- Embedding of the dispatch body of `unitary` (source lines 311-351). -/
def unitary (mq : MultiQubit) (rotQubit : ℕ) (u : ComplexMatrix2) : List Action :=
  if halfMatrixBlockFitsInChunk mq.numAmps rotQubit then
    [Action.unitaryLocal rotQubit u]
  else
    let rankIsUpper := chunkIsUpper mq.chunkId mq.numAmps rotQubit
    let rot := getRotAngleFromUnitaryMatrix rankIsUpper u
    let pairRank := getChunkPairId rankIsUpper mq.chunkId mq.numAmps rotQubit
    if rankIsUpper then
      [Action.exchangeStateVectors pairRank,
       Action.unitaryDistributed rotQubit rot.1 rot.2
         Buf.stateVec Buf.pairStateVec Buf.stateVec]
    else
      [Action.exchangeStateVectors pairRank,
       Action.unitaryDistributed rotQubit rot.1 rot.2
         Buf.pairStateVec Buf.stateVec Buf.stateVec]

/-- Embedding of the dispatch body of `controlledCompactUnitary`
(source lines 353-394). -/
def controlledCompactUnitary (mq : MultiQubit) (rotQubit controlQubit : ℕ)
    (alpha beta : Complex) : List Action :=
  if halfMatrixBlockFitsInChunk mq.numAmps rotQubit then
    [Action.controlledCompactUnitaryLocal rotQubit controlQubit alpha beta]
  else
    let rankIsUpper := chunkIsUpper mq.chunkId mq.numAmps rotQubit
    let rot := getRotAngle rankIsUpper alpha beta
    let pairRank := getChunkPairId rankIsUpper mq.chunkId mq.numAmps rotQubit
    if rankIsUpper then
      [Action.exchangeStateVectors pairRank,
       Action.controlledCompactUnitaryDistributed rotQubit controlQubit rot.1 rot.2
         Buf.stateVec Buf.pairStateVec Buf.stateVec]
    else
      [Action.exchangeStateVectors pairRank,
       Action.controlledCompactUnitaryDistributed rotQubit controlQubit rot.1 rot.2
         Buf.pairStateVec Buf.stateVec Buf.stateVec]

/-- Embedding of the dispatch body of `controlledUnitary` (source lines 396-438). -/
def controlledUnitary (mq : MultiQubit) (rotQubit controlQubit : ℕ)
    (u : ComplexMatrix2) : List Action :=
  if halfMatrixBlockFitsInChunk mq.numAmps rotQubit then
    [Action.controlledUnitaryLocal rotQubit controlQubit u]
  else
    let rankIsUpper := chunkIsUpper mq.chunkId mq.numAmps rotQubit
    let rot := getRotAngleFromUnitaryMatrix rankIsUpper u
    let pairRank := getChunkPairId rankIsUpper mq.chunkId mq.numAmps rotQubit
    if rankIsUpper then
      [Action.exchangeStateVectors pairRank,
       Action.controlledUnitaryDistributed rotQubit controlQubit rot.1 rot.2
         Buf.stateVec Buf.pairStateVec Buf.stateVec]
    else
      [Action.exchangeStateVectors pairRank,
       Action.controlledUnitaryDistributed rotQubit controlQubit rot.1 rot.2
         Buf.pairStateVec Buf.stateVec Buf.stateVec]

/-- The control-qubit bitmask of `multiControlledUnitary`
(source lines 446-447): the fold mirrors the C loop
`for i: mask = mask | (1LL << controlQubits[i])`. -/
def multiControlMask (controlQubits : List ℕ) : ℕ :=
  controlQubits.foldl (fun mask q => mask ||| (1 <<< q)) 0

/-- Embedding of the dispatch body of `multiControlledUnitary`
(source lines 440-485); the control array is given as a list whose length
plays the role of `numControlQubits`. -/
def multiControlledUnitary (mq : MultiQubit) (controlQubits : List ℕ)
    (rotQubit : ℕ) (u : ComplexMatrix2) : List Action :=
  let mask := multiControlMask controlQubits
  if halfMatrixBlockFitsInChunk mq.numAmps rotQubit then
    [Action.multiControlledUnitaryLocal rotQubit mask u]
  else
    let rankIsUpper := chunkIsUpper mq.chunkId mq.numAmps rotQubit
    let rot := getRotAngleFromUnitaryMatrix rankIsUpper u
    let pairRank := getChunkPairId rankIsUpper mq.chunkId mq.numAmps rotQubit
    if rankIsUpper then
      [Action.exchangeStateVectors pairRank,
       Action.multiControlledUnitaryDistributed rotQubit mask rot.1 rot.2
         Buf.stateVec Buf.pairStateVec Buf.stateVec]
    else
      [Action.exchangeStateVectors pairRank,
       Action.multiControlledUnitaryDistributed rotQubit mask rot.1 rot.2
         Buf.pairStateVec Buf.stateVec Buf.stateVec]

/-- Embedding of the dispatch body of `sigmaX` (source lines 486-513):
the distributed call is not branched on the upper/lower position. -/
def sigmaX (mq : MultiQubit) (rotQubit : ℕ) : List Action :=
  if halfMatrixBlockFitsInChunk mq.numAmps rotQubit then
    [Action.sigmaXLocal rotQubit]
  else
    let rankIsUpper := chunkIsUpper mq.chunkId mq.numAmps rotQubit
    let pairRank := getChunkPairId rankIsUpper mq.chunkId mq.numAmps rotQubit
    [Action.exchangeStateVectors pairRank,
     Action.sigmaXDistributed rotQubit Buf.pairStateVec Buf.stateVec]

/-- Embedding of the dispatch body of `controlledNot` (source lines 515-550):
the source branches on `rankIsUpper` but both arms pass identical arguments;
the branch is mirrored literally. -/
def controlledNot (mq : MultiQubit) (controlQubit rotQubit : ℕ) : List Action :=
  if halfMatrixBlockFitsInChunk mq.numAmps rotQubit then
    [Action.controlledNotLocal controlQubit rotQubit]
  else
    let rankIsUpper := chunkIsUpper mq.chunkId mq.numAmps rotQubit
    let pairRank := getChunkPairId rankIsUpper mq.chunkId mq.numAmps rotQubit
    if rankIsUpper then
      [Action.exchangeStateVectors pairRank,
       Action.controlledNotDistributed controlQubit rotQubit
         Buf.pairStateVec Buf.stateVec]
    else
      [Action.exchangeStateVectors pairRank,
       Action.controlledNotDistributed controlQubit rotQubit
         Buf.pairStateVec Buf.stateVec]

/-- Embedding of the dispatch body of `sigmaY` (source lines 552-581). -/
def sigmaY (mq : MultiQubit) (rotQubit : ℕ) : List Action :=
  if halfMatrixBlockFitsInChunk mq.numAmps rotQubit then
    [Action.sigmaYLocal rotQubit]
  else
    let rankIsUpper := chunkIsUpper mq.chunkId mq.numAmps rotQubit
    let pairRank := getChunkPairId rankIsUpper mq.chunkId mq.numAmps rotQubit
    [Action.exchangeStateVectors pairRank,
     Action.sigmaYDistributed rotQubit Buf.pairStateVec Buf.stateVec rankIsUpper]

/-- Embedding of the dispatch body of `hadamard` (source lines 601-636). -/
def hadamard (mq : MultiQubit) (rotQubit : ℕ) : List Action :=
  if halfMatrixBlockFitsInChunk mq.numAmps rotQubit then
    [Action.hadamardLocal rotQubit]
  else
    let rankIsUpper := chunkIsUpper mq.chunkId mq.numAmps rotQubit
    let pairRank := getChunkPairId rankIsUpper mq.chunkId mq.numAmps rotQubit
    if rankIsUpper then
      [Action.exchangeStateVectors pairRank,
       Action.hadamardDistributed rotQubit
         Buf.stateVec Buf.pairStateVec Buf.stateVec rankIsUpper]
    else
      [Action.exchangeStateVectors pairRank,
       Action.hadamardDistributed rotQubit
         Buf.pairStateVec Buf.stateVec Buf.stateVec rankIsUpper]

/-- Embedding of the dispatch body of `phaseGate` (source lines 583-599):
no exchange is performed, and on the non-local path the distributed kernel
runs only when the shard is not in the upper half.  The phase-gate kind
enumeration lives outside the given sources and is modelled as a numeric tag. -/
def phaseGate (mq : MultiQubit) (rotQubit : ℕ) (gateType : ℕ) : List Action :=
  if halfMatrixBlockFitsInChunk mq.numAmps rotQubit then
    [Action.phaseGateLocal rotQubit gateType]
  else
    let rankIsUpper := chunkIsUpper mq.chunkId mq.numAmps rotQubit
    if !rankIsUpper then
      [Action.phaseGateDistributed rotQubit gateType]
    else
      []

/-- True exactly on the `exchangeStateVectors` action. -/
def Action.isExchange : Action → Bool
  | Action.exchangeStateVectors _ => true
  | _ => false

/-- True exactly on the local-kernel actions. -/
def Action.isLocalKernel : Action → Bool
  | Action.compactUnitaryLocal .. => true
  | Action.unitaryLocal .. => true
  | Action.controlledCompactUnitaryLocal .. => true
  | Action.controlledUnitaryLocal .. => true
  | Action.multiControlledUnitaryLocal .. => true
  | Action.sigmaXLocal .. => true
  | Action.controlledNotLocal .. => true
  | Action.sigmaYLocal .. => true
  | Action.hadamardLocal .. => true
  | Action.phaseGateLocal .. => true
  | _ => false

/-- True exactly on the distributed-kernel actions. -/
def Action.isDistKernel : Action → Bool
  | Action.compactUnitaryDistributed .. => true
  | Action.unitaryDistributed .. => true
  | Action.controlledCompactUnitaryDistributed .. => true
  | Action.controlledUnitaryDistributed .. => true
  | Action.multiControlledUnitaryDistributed .. => true
  | Action.sigmaXDistributed .. => true
  | Action.controlledNotDistributed .. => true
  | Action.sigmaYDistributed .. => true
  | Action.hadamardDistributed .. => true
  | Action.phaseGateDistributed .. => true
  | _ => false

/-! Exchange layer (source lines 239-269).  The embedding records the
message layout produced by `exchangeStateVectors`: one send/receive per
sub-range of each of the two component arrays. -/

/-- One point-to-point message of `exchangeStateVectors`: which component
array it covers (`false` = real parts, `true` = imaginary parts), the
element offset, the element count, and the transport tag. -/
structure Message where
  imagPart : Bool
  offset : ℕ
  count : ℕ
  tag : ℕ
deriving DecidableEq

/-- The `maxMessageCount` computation of `exchangeStateVectors`
(source lines 247-251): default `2 ^ 29`, overridden to `2 ^ 28` when
`sizeof(REAL) = 8` and to `2 ^ 27` when `sizeof(REAL) = 16`, then clamped
down to `numAmps` when the shard is smaller. -/
def maxMessageCountFor (sizeofREAL : ℕ) (numAmps : ℕ) : ℕ :=
  let m : ℕ :=
    if sizeofREAL = 8 then 1 <<< 28
    else if sizeofREAL = 16 then 1 <<< 27
    else 1 <<< 29
  if numAmps < m then numAmps else m

/-- The `numMessages` computation of `exchangeStateVectors`
(source line 252): per component array. -/
def numMessagesFor (sizeofREAL : ℕ) (numAmps : ℕ) : ℕ :=
  numAmps / maxMessageCountFor sizeofREAL numAmps

/-- Embedding of the message layout of `exchangeStateVectors`
(source lines 239-269): for each message index, one real-part and one
imaginary-part send/receive of `maxMessageCount` elements at offset
`i * maxMessageCount`, all with the fixed tag `100`. -/
def exchangeStateVectorsMessages (sizeofREAL : ℕ) (numAmps : ℕ) : List Message :=
  let TAG := 100
  let maxMessageCount := maxMessageCountFor sizeofREAL numAmps
  let numMessages := numMessagesFor sizeofREAL numAmps
  (List.range numMessages).flatMap (fun i =>
    [{ imagPart := false, offset := i * maxMessageCount,
       count := maxMessageCount, tag := TAG },
     { imagPart := true, offset := i * maxMessageCount,
       count := maxMessageCount, tag := TAG }])

/-! Measurement (source lines 639-702).  The numeric kernels
`findProbabilityOfZeroLocal`, `findProbabilityOfZeroDistributed` and the
three collapse kernels live in `qubits.c`, outside the given sources, and
are modelled from the specification below.  The per-rank results combined
by `MPI_Allreduce` are modelled by computing over the list of all per-rank
views at once. -/

/-- Modelled from the spec: `findProbabilityOfZeroLocal` (defined in
`qubits.c`, absent from the given sources) sums `re^2 + im^2` over the
amplitudes of this shard that lie in the upper (outcome-0) half of their
block, i.e. whose global index has bit `measureQubit` clear. -/
def findProbabilityOfZeroLocal (mq : MultiQubit) (measureQubit : ℕ) : ℚ :=
  ((List.range mq.numAmps).map (fun j =>
    if Nat.testBit (mq.chunkId * mq.numAmps + j) measureQubit then 0
    else mq.stateVec.real.getD j 0 ^ 2 + mq.stateVec.imag.getD j 0 ^ 2)).sum

/-- Modelled from the spec: `findProbabilityOfZeroDistributed` (defined in
`qubits.c`, absent from the given sources) sums `re^2 + im^2` over the
whole shard; it is only invoked on shards lying entirely in the upper half
of their block. -/
def findProbabilityOfZeroDistributed (mq : MultiQubit) (measureQubit : ℕ) : ℚ :=
  ((List.range mq.numAmps).map (fun j =>
    mq.stateVec.real.getD j 0 ^ 2 + mq.stateVec.imag.getD j 0 ^ 2)).sum

/-- The per-rank contribution summed by the all-reduce in
`findProbabilityOfOutcome` (source lines 663-671). -/
def chunkContribution (mq : MultiQubit) (measureQubit : ℕ) : ℚ :=
  let skipValuesWithinRank := halfMatrixBlockFitsInChunk mq.numAmps measureQubit
  if skipValuesWithinRank then
    findProbabilityOfZeroLocal mq measureQubit
  else
    if !isChunkToSkipInFindPZero mq.chunkId mq.numAmps measureQubit then
      findProbabilityOfZeroDistributed mq measureQubit
    else 0

/-- Embedding of `findProbabilityOfOutcome` (source lines 659-675) over the
list of all per-rank views; the all-reduce sum is the sum of the per-rank
contributions, and the `outcome` argument keeps the C `int` type. -/
def findProbabilityOfOutcome (chunks : List MultiQubit) (measureQubit : ℕ)
    (outcome : ℤ) : ℚ :=
  let totalStateProb := (chunks.map (fun mq => chunkContribution mq measureQubit)).sum
  if outcome = 1 then 1 - totalStateProb else totalStateProb

/-- Modelled from the spec: `collapseToOutcomeLocal` (defined in `qubits.c`,
absent from the given sources) divides every amplitude whose bit
`measureQubit` matches `outcome` by the square root of `totalStateProb` and
zeroes the rest.  The square root of the probability is irrational in
general, so its computed value is taken as the parameter `sqrtProb`; the
claims proved below do not depend on it. -/
def collapseToOutcomeLocal (sqrtProb : ℚ) (mq : MultiQubit) (measureQubit : ℕ)
    (outcome : ℤ) : MultiQubit :=
  { mq with stateVec :=
    { real := (List.range mq.numAmps).map (fun j =>
        if (if Nat.testBit (mq.chunkId * mq.numAmps + j) measureQubit then (1 : ℤ) else 0) = outcome
        then mq.stateVec.real.getD j 0 / sqrtProb else 0),
      imag := (List.range mq.numAmps).map (fun j =>
        if (if Nat.testBit (mq.chunkId * mq.numAmps + j) measureQubit then (1 : ℤ) else 0) = outcome
        then mq.stateVec.imag.getD j 0 / sqrtProb else 0) } }

/-- Modelled from the spec: `collapseToOutcomeDistributedRenorm` (defined in
`qubits.c`, absent from the given sources) divides every amplitude of the
shard by the square root of `totalStateProb`, taken as `sqrtProb` as above. -/
def collapseToOutcomeDistributedRenorm (sqrtProb : ℚ) (mq : MultiQubit)
    (measureQubit : ℕ) : MultiQubit :=
  { mq with stateVec :=
    { real := mq.stateVec.real.map (fun a => a / sqrtProb),
      imag := mq.stateVec.imag.map (fun a => a / sqrtProb) } }

/-- Modelled from the spec: `collapseToOutcomeDistributedSetZero` (defined in
`qubits.c`, absent from the given sources) zeroes every amplitude of the
shard. -/
def collapseToOutcomeDistributedSetZero (mq : MultiQubit) (measureQubit : ℕ) :
    MultiQubit :=
  { mq with stateVec :=
    { real := mq.stateVec.real.map (fun _ => 0),
      imag := mq.stateVec.imag.map (fun _ => 0) } }

/-- The per-rank collapse step of `collapseToOutcome` (source lines 685-700),
applied after the probability check has passed. -/
def collapseChunk (sqrtProb : ℚ) (mq : MultiQubit) (measureQubit : ℕ)
    (outcome : ℤ) : MultiQubit :=
  let skipValuesWithinRank := halfMatrixBlockFitsInChunk mq.numAmps measureQubit
  if skipValuesWithinRank then
    collapseToOutcomeLocal sqrtProb mq measureQubit outcome
  else
    if !isChunkToSkipInFindPZero mq.chunkId mq.numAmps measureQubit then
      if outcome = 0 then collapseToOutcomeDistributedRenorm sqrtProb mq measureQubit
      else collapseToOutcomeDistributedSetZero mq measureQubit
    else
      if outcome = 1 then collapseToOutcomeDistributedRenorm sqrtProb mq measureQubit
      else collapseToOutcomeDistributedSetZero mq measureQubit

/-- Embedding of `collapseToOutcome` (source lines 678-702) over the list of
all per-rank views.  The source asserts
`QuESTAssert(fabs(totalStateProb>REAL_EPS), 8, ...)`: the inner comparison
yields the int 0 or 1, `fabs` maps it to 0.0 or 1.0, so the assertion fails
exactly when `totalStateProb > REAL_EPS` is false; on failure the program
aborts with error code 8 before any kernel has been invoked, which the
embedding renders by returning the unchanged state together with
`Except.error 8`.  The tolerance `REAL_EPS` is defined in `precision.h`,
outside the given sources, and is taken as the parameter `eps`. -/
def collapseToOutcome (eps sqrtProb : ℚ) (chunks : List MultiQubit)
    (measureQubit : ℕ) (outcome : ℤ) : List MultiQubit × Except ℕ ℚ :=
  let totalStateProb := findProbabilityOfOutcome chunks measureQubit outcome
  if totalStateProb > eps then
    (chunks.map (fun mq => collapseChunk sqrtProb mq measureQubit outcome),
     Except.ok totalStateProb)
  else
    (chunks, Except.error 8)

/-! Phase-gate semantics, for the frame claim about `phaseGate`.  The two
kernels live in `qubits.c`, outside the given sources, and are modelled
from the specification; the per-kind scalar multiplier is supplied as a
function from the numeric kind tag to a complex scalar. -/

/-- Real part of the product of the scalar `s` with the amplitude `re + i im`. -/
def scaleRe (s : Complex) (re im : ℚ) : ℚ := s.real * re - s.imag * im

/-- Imaginary part of the product of the scalar `s` with the amplitude `re + i im`. -/
def scaleIm (s : Complex) (re im : ℚ) : ℚ := s.real * im + s.imag * re

/-- Modelled from the spec: `phaseGateLocal` (defined in `qubits.c`, absent
from the given sources) multiplies every amplitude of the shard whose
global index has bit `rotQubit` set by the scalar of the gate kind. -/
def phaseGateLocalRun (s : Complex) (mq : MultiQubit) (rotQubit : ℕ) : MultiQubit :=
  { mq with stateVec :=
    { real := (List.range mq.numAmps).map (fun j =>
        if Nat.testBit (mq.chunkId * mq.numAmps + j) rotQubit
        then scaleRe s (mq.stateVec.real.getD j 0) (mq.stateVec.imag.getD j 0)
        else mq.stateVec.real.getD j 0),
      imag := (List.range mq.numAmps).map (fun j =>
        if Nat.testBit (mq.chunkId * mq.numAmps + j) rotQubit
        then scaleIm s (mq.stateVec.real.getD j 0) (mq.stateVec.imag.getD j 0)
        else mq.stateVec.imag.getD j 0) } }

/-- Modelled from the spec: `phaseGateDistributed` (defined in `qubits.c`,
absent from the given sources) multiplies every amplitude of the shard by
the scalar of the gate kind; it is only invoked on shards lying entirely in
the lower half of their block. -/
def phaseGateDistributedRun (s : Complex) (mq : MultiQubit) (rotQubit : ℕ) :
    MultiQubit :=
  { mq with stateVec :=
    { real := (List.range mq.numAmps).map (fun j =>
        scaleRe s (mq.stateVec.real.getD j 0) (mq.stateVec.imag.getD j 0)),
      imag := (List.range mq.numAmps).map (fun j =>
        scaleIm s (mq.stateVec.real.getD j 0) (mq.stateVec.imag.getD j 0)) } }

/-- State semantics of the `phaseGate` dispatch (source lines 583-599), with
the kernels modelled from the spec as above; `scalarOf` gives the per-kind
scalar multiplier (the kind enumeration lives outside the given sources). -/
def phaseGateRun (scalarOf : ℕ → Complex) (mq : MultiQubit) (rotQubit : ℕ)
    (gateType : ℕ) : MultiQubit :=
  if halfMatrixBlockFitsInChunk mq.numAmps rotQubit then
    phaseGateLocalRun (scalarOf gateType) mq rotQubit
  else
    let rankIsUpper := chunkIsUpper mq.chunkId mq.numAmps rotQubit
    if !rankIsUpper then
      phaseGateDistributedRun (scalarOf gateType) mq rotQubit
    else
      mq

/-! Environment management (source lines 26-44).  The ambient MPI transport
is modelled as a state carrying the initialized flag and the rank and size
that `MPI_Comm_rank` and `MPI_Comm_size` report. -/

/-- The environment handle populated by `initQuESTEnv`. -/
structure QuESTEnv where
  rank : ℕ
  numRanks : ℕ
deriving DecidableEq

/-- Model of the ambient MPI transport: whether `MPI_Init` has been called,
and the rank and communicator size the transport reports to this worker. -/
structure MPIState where
  initialized : Bool
  rank : ℕ
  numRanks : ℕ
deriving DecidableEq

/-- Embedding of `initQuESTEnv` (source lines 26-44): when the transport is
not initialized, initialize it and populate the handle from the reported
rank and size; otherwise print a warning (the returned boolean) and leave
both the transport and the handle untouched. -/
def initQuESTEnv (mpi : MPIState) (env : QuESTEnv) :
    MPIState × QuESTEnv × Bool :=
  if !mpi.initialized then
    ({ mpi with initialized := true },
     { rank := mpi.rank, numRanks := mpi.numRanks },
     false)
  else
    (mpi, env, true)

/-! Helper lemmas. -/

/-- Masking with a single power of two keeps exactly that bit. -/
theorem and_two_pow_eq (x i : ℕ) :
    x &&& 2 ^ i = if x.testBit i then 2 ^ i else 0 := by
  apply Nat.eq_of_testBit_eq
  intro j
  by_cases hij : i = j
  · subst hij
    cases hx : x.testBit i <;>
      simp [Nat.testBit_and, Nat.testBit_two_pow, hx]
  · cases hx : x.testBit i <;>
      simp [Nat.testBit_and, Nat.testBit_two_pow, hij, hx]

/-- The masked value is nonzero exactly when the selected bit is set. -/
theorem and_two_pow_ne_zero (x i : ℕ) :
    x &&& 2 ^ i ≠ 0 ↔ x.testBit i = true := by
  rw [and_two_pow_eq]
  cases hx : x.testBit i <;> simp [hx]

/-- Position within a double-sized block is in the lower power-of-two part
exactly when the corresponding bit of the index is clear. -/
theorem mod_double_lt_iff_testBit (n q : ℕ) :
    n % (2 ^ q * 2) < 2 ^ q ↔ n.testBit q = false := by
  have hlt : n % 2 ^ q < 2 ^ q := Nat.mod_lt _ (Nat.two_pow_pos q)
  rcases Nat.mod_two_eq_zero_or_one (n / 2 ^ q) with h | h
  · rw [Nat.mod_mul, Nat.testBit_to_div_mod, h]
    simpa using hlt
  · rw [Nat.mod_mul, Nat.testBit_to_div_mod, h]
    constructor
    · intro hcon
      have hge : 2 ^ q ≤ n % 2 ^ q + 2 ^ q * 1 := by
        calc 2 ^ q ≤ 2 ^ q * 1 := by simp
        _ ≤ n % 2 ^ q + 2 ^ q * 1 := Nat.le_add_left _ _
      exact absurd hcon (Nat.not_lt.mpr hge)
    · intro hfalse
      simp at hfalse

/-- Clamping by a conditional is the minimum. -/
theorem clamp_eq_min (n m : ℕ) : (if n < m then n else m) = min n m := by
  rcases Nat.lt_or_ge n m with h | h
  · simp [h, Nat.min_eq_left (Nat.le_of_lt h)]
  · simp [Nat.not_lt.mpr h, Nat.min_eq_right h]

/-- A power-of-two total clamped to a power-of-two cap is covered exactly by
whole messages: the integer quotient times the cap restores the total. -/
theorem pow_two_message_cover (k c : ℕ) :
    2 ^ k / (if (2 : ℕ) ^ k < 2 ^ c then 2 ^ k else 2 ^ c) *
      (if (2 : ℕ) ^ k < 2 ^ c then 2 ^ k else 2 ^ c) = 2 ^ k := by
  by_cases h : (2 : ℕ) ^ k < 2 ^ c
  · simp [h, Nat.div_self (Nat.two_pow_pos k)]
  · have hck : c ≤ k := by
      by_contra hc
      exact h (Nat.pow_lt_pow_right (by norm_num) (by omega))
    have hdvd : 2 ^ c ∣ 2 ^ k := pow_dvd_pow 2 hck
    simp [h, Nat.div_mul_cancel hdvd]

/-- Sums of pointwise-equal maps agree. -/
theorem sum_map_congr (f g : ℕ → ℚ) (l : List ℕ) (h : ∀ j ∈ l, f j = g j) :
    (l.map f).sum = (l.map g).sum := by
  induction l with
  | nil => rfl
  | cons a l ih =>
      simp only [List.map_cons, List.sum_cons]
      rw [h a (by simp), ih (fun j hj => h j (by simp [hj]))]

/-! Concrete fixtures used by witnesses and counterexamples. -/

/-- A per-rank view with shard size 2 on chunk 0, holding the basis state. -/
def mq2 : MultiQubit :=
  { numQubits := 2, numAmps := 2, chunkId := 0,
    stateVec := { real := [1, 0], imag := [0, 0] },
    pairStateVec := { real := [0, 0], imag := [0, 0] } }

/-- A per-rank view whose amplitudes are all zero. -/
def mqZ : MultiQubit :=
  { numQubits := 1, numAmps := 2, chunkId := 0,
    stateVec := { real := [0, 0], imag := [0, 0] },
    pairStateVec := { real := [0, 0], imag := [0, 0] } }

/-- A concrete complex scalar. -/
def cA : Complex := { real := 1, imag := 2 }

/-- Another concrete complex scalar. -/
def cB : Complex := { real := 3, imag := 5 }

/-- A concrete 2x2 matrix. -/
def uX : ComplexMatrix2 :=
  { r0c0 := { real := 0, imag := 0 }, r0c1 := { real := 1, imag := 0 },
    r1c0 := { real := 1, imag := 0 }, r1c1 := { real := 0, imag := 0 } }

/-- C1: in every distributed-path dispatch of the compact-unitary family
(compactUnitary, controlledCompactUnitary) the per-shard coefficients are
rot1 = alpha and rot2 = -beta componentwise (no conjugation) for an upper
shard, and rot1 = beta, rot2 = alpha for a lower shard; in the full-matrix
family (unitary, controlledUnitary, multiControlledUnitary) an upper shard
gets (u00, u01) and a lower shard gets (u10, u11). -/
theorem rot_coefficients_per_shard (mq : MultiQubit) (rotQubit controlQubit : ℕ)
    (controlQubits : List ℕ) (alpha beta : Complex) (u : ComplexMatrix2)
    (hdist : halfMatrixBlockFitsInChunk mq.numAmps rotQubit = false) :
    (getRotAngle true alpha beta =
        (alpha, { real := -beta.real, imag := -beta.imag }) ∧
      getRotAngle false alpha beta = (beta, alpha)) ∧
    (getRotAngleFromUnitaryMatrix true u = (u.r0c0, u.r0c1) ∧
      getRotAngleFromUnitaryMatrix false u = (u.r1c0, u.r1c1)) ∧
    ((chunkIsUpper mq.chunkId mq.numAmps rotQubit = true →
      compactUnitary mq rotQubit alpha beta =
        [Action.exchangeStateVectors
            (getChunkPairId true mq.chunkId mq.numAmps rotQubit),
         Action.compactUnitaryDistributed rotQubit alpha
           { real := -beta.real, imag := -beta.imag }
           Buf.stateVec Buf.pairStateVec Buf.stateVec]) ∧
    (chunkIsUpper mq.chunkId mq.numAmps rotQubit = false →
      compactUnitary mq rotQubit alpha beta =
        [Action.exchangeStateVectors
            (getChunkPairId false mq.chunkId mq.numAmps rotQubit),
         Action.compactUnitaryDistributed rotQubit beta alpha
           Buf.pairStateVec Buf.stateVec Buf.stateVec]) ∧
    (chunkIsUpper mq.chunkId mq.numAmps rotQubit = true →
      controlledCompactUnitary mq rotQubit controlQubit alpha beta =
        [Action.exchangeStateVectors
            (getChunkPairId true mq.chunkId mq.numAmps rotQubit),
         Action.controlledCompactUnitaryDistributed rotQubit controlQubit alpha
           { real := -beta.real, imag := -beta.imag }
           Buf.stateVec Buf.pairStateVec Buf.stateVec]) ∧
    (chunkIsUpper mq.chunkId mq.numAmps rotQubit = false →
      controlledCompactUnitary mq rotQubit controlQubit alpha beta =
        [Action.exchangeStateVectors
            (getChunkPairId false mq.chunkId mq.numAmps rotQubit),
         Action.controlledCompactUnitaryDistributed rotQubit controlQubit beta alpha
           Buf.pairStateVec Buf.stateVec Buf.stateVec]) ∧
    (chunkIsUpper mq.chunkId mq.numAmps rotQubit = true →
      unitary mq rotQubit u =
        [Action.exchangeStateVectors
            (getChunkPairId true mq.chunkId mq.numAmps rotQubit),
         Action.unitaryDistributed rotQubit u.r0c0 u.r0c1
           Buf.stateVec Buf.pairStateVec Buf.stateVec]) ∧
    (chunkIsUpper mq.chunkId mq.numAmps rotQubit = false →
      unitary mq rotQubit u =
        [Action.exchangeStateVectors
            (getChunkPairId false mq.chunkId mq.numAmps rotQubit),
         Action.unitaryDistributed rotQubit u.r1c0 u.r1c1
           Buf.pairStateVec Buf.stateVec Buf.stateVec]) ∧
    (chunkIsUpper mq.chunkId mq.numAmps rotQubit = true →
      controlledUnitary mq rotQubit controlQubit u =
        [Action.exchangeStateVectors
            (getChunkPairId true mq.chunkId mq.numAmps rotQubit),
         Action.controlledUnitaryDistributed rotQubit controlQubit u.r0c0 u.r0c1
           Buf.stateVec Buf.pairStateVec Buf.stateVec]) ∧
    (chunkIsUpper mq.chunkId mq.numAmps rotQubit = false →
      controlledUnitary mq rotQubit controlQubit u =
        [Action.exchangeStateVectors
            (getChunkPairId false mq.chunkId mq.numAmps rotQubit),
         Action.controlledUnitaryDistributed rotQubit controlQubit u.r1c0 u.r1c1
           Buf.pairStateVec Buf.stateVec Buf.stateVec]) ∧
    (chunkIsUpper mq.chunkId mq.numAmps rotQubit = true →
      multiControlledUnitary mq controlQubits rotQubit u =
        [Action.exchangeStateVectors
            (getChunkPairId true mq.chunkId mq.numAmps rotQubit),
         Action.multiControlledUnitaryDistributed rotQubit
           (multiControlMask controlQubits) u.r0c0 u.r0c1
           Buf.stateVec Buf.pairStateVec Buf.stateVec]) ∧
    (chunkIsUpper mq.chunkId mq.numAmps rotQubit = false →
      multiControlledUnitary mq controlQubits rotQubit u =
        [Action.exchangeStateVectors
            (getChunkPairId false mq.chunkId mq.numAmps rotQubit),
         Action.multiControlledUnitaryDistributed rotQubit
           (multiControlMask controlQubits) u.r1c0 u.r1c1
           Buf.pairStateVec Buf.stateVec Buf.stateVec])) := by
  refine ⟨⟨rfl, rfl⟩, ⟨rfl, rfl⟩, ?_, ?_, ?_, ?_, ?_, ?_, ?_, ?_, ?_, ?_⟩ <;>
    intro hU <;>
    simp [compactUnitary, controlledCompactUnitary, unitary, controlledUnitary,
      multiControlledUnitary, hdist, hU, getRotAngle, getRotAngleFromUnitaryMatrix]

/-- Witness for C1 at a concrete upper-shard input. -/
theorem rot_coefficients_per_shard_witness :
    compactUnitary mq2 1 cA cB =
      [Action.exchangeStateVectors 1,
       Action.compactUnitaryDistributed 1 cA { real := -cB.real, imag := -cB.imag }
         Buf.stateVec Buf.pairStateVec Buf.stateVec] := by
  have h := rot_coefficients_per_shard mq2 1 0 [] cA cB uX (by decide)
  exact h.2.2.1 (by decide)

/-- C8: on the distributed path of sigmaX and controlledNot the distributed
kernel always receives the pair buffer as input and the local shard as
output, with the same argument order regardless of whether the shard is
upper or lower, and no coefficients. -/
theorem sigmaX_controlledNot_buffer_order (mq : MultiQubit)
    (controlQubit rotQubit : ℕ)
    (hdist : halfMatrixBlockFitsInChunk mq.numAmps rotQubit = false) :
    sigmaX mq rotQubit =
      [Action.exchangeStateVectors
          (getChunkPairId (chunkIsUpper mq.chunkId mq.numAmps rotQubit)
            mq.chunkId mq.numAmps rotQubit),
       Action.sigmaXDistributed rotQubit Buf.pairStateVec Buf.stateVec] ∧
    controlledNot mq controlQubit rotQubit =
      [Action.exchangeStateVectors
          (getChunkPairId (chunkIsUpper mq.chunkId mq.numAmps rotQubit)
            mq.chunkId mq.numAmps rotQubit),
       Action.controlledNotDistributed controlQubit rotQubit
         Buf.pairStateVec Buf.stateVec] := by
  cases hU : chunkIsUpper mq.chunkId mq.numAmps rotQubit <;>
    exact ⟨by simp [sigmaX, hdist, hU], by simp [controlledNot, hdist, hU]⟩

/-- Witness for C8 at a concrete upper-shard input. -/
theorem sigmaX_controlledNot_buffer_order_witness :
    sigmaX mq2 1 =
      [Action.exchangeStateVectors 1,
       Action.sigmaXDistributed 1 Buf.pairStateVec Buf.stateVec] ∧
    controlledNot mq2 0 1 =
      [Action.exchangeStateVectors 1,
       Action.controlledNotDistributed 0 1 Buf.pairStateVec Buf.stateVec] :=
  sigmaX_controlledNot_buffer_order mq2 0 1 (by decide)

/-- C2 counterexample: phaseGate is among the listed gate dispatches, and on
inputs taking its non-local path (shard size 2, target qubit 2, upper chunk)
it performs no peer exchange and invokes no kernel at all, contradicting the
claim that otherwise the distributed path consists of a peer exchange
followed by the distributed kernel. -/
theorem phaseGate_nonlocal_no_exchange_cex :
    halfMatrixBlockFitsInChunk mq2.numAmps 2 = false ∧
    phaseGate mq2 2 0 = [] := by decide

/-- C2 (amended): for every listed gate dispatch the local kernel is invoked
if and only if the shard size exceeds the half-block size 2 ^ q
(halfMatrixBlockFitsInChunk), the boundary shard size 2 ^ (q + 1) being
local; on the non-local path every gate except phaseGate performs a peer
exchange followed by its distributed kernel, while phaseGate performs no
exchange and invokes its distributed kernel exactly when the shard is in
the lower half. -/
theorem gate_dispatch_local_iff (mq : MultiQubit) (rotQubit controlQubit : ℕ)
    (controlQubits : List ℕ) (alpha beta : Complex) (u : ComplexMatrix2)
    (gateType : ℕ) :
    (halfMatrixBlockFitsInChunk mq.numAmps rotQubit = true ↔
      2 ^ rotQubit < mq.numAmps) ∧
    halfMatrixBlockFitsInChunk (2 ^ (rotQubit + 1)) rotQubit = true ∧
    ((compactUnitary mq rotQubit alpha beta).any Action.isLocalKernel =
      halfMatrixBlockFitsInChunk mq.numAmps rotQubit) ∧
    ((unitary mq rotQubit u).any Action.isLocalKernel =
      halfMatrixBlockFitsInChunk mq.numAmps rotQubit) ∧
    ((controlledCompactUnitary mq rotQubit controlQubit alpha beta).any
        Action.isLocalKernel =
      halfMatrixBlockFitsInChunk mq.numAmps rotQubit) ∧
    ((controlledUnitary mq rotQubit controlQubit u).any Action.isLocalKernel =
      halfMatrixBlockFitsInChunk mq.numAmps rotQubit) ∧
    ((multiControlledUnitary mq controlQubits rotQubit u).any
        Action.isLocalKernel =
      halfMatrixBlockFitsInChunk mq.numAmps rotQubit) ∧
    ((sigmaX mq rotQubit).any Action.isLocalKernel =
      halfMatrixBlockFitsInChunk mq.numAmps rotQubit) ∧
    ((sigmaY mq rotQubit).any Action.isLocalKernel =
      halfMatrixBlockFitsInChunk mq.numAmps rotQubit) ∧
    ((controlledNot mq controlQubit rotQubit).any Action.isLocalKernel =
      halfMatrixBlockFitsInChunk mq.numAmps rotQubit) ∧
    ((hadamard mq rotQubit).any Action.isLocalKernel =
      halfMatrixBlockFitsInChunk mq.numAmps rotQubit) ∧
    ((phaseGate mq rotQubit gateType).any Action.isLocalKernel =
      halfMatrixBlockFitsInChunk mq.numAmps rotQubit) ∧
    (halfMatrixBlockFitsInChunk mq.numAmps rotQubit = false →
      (∃ pr k, compactUnitary mq rotQubit alpha beta =
          [Action.exchangeStateVectors pr, k] ∧ k.isDistKernel = true) ∧
      (∃ pr k, unitary mq rotQubit u =
          [Action.exchangeStateVectors pr, k] ∧ k.isDistKernel = true) ∧
      (∃ pr k, controlledCompactUnitary mq rotQubit controlQubit alpha beta =
          [Action.exchangeStateVectors pr, k] ∧ k.isDistKernel = true) ∧
      (∃ pr k, controlledUnitary mq rotQubit controlQubit u =
          [Action.exchangeStateVectors pr, k] ∧ k.isDistKernel = true) ∧
      (∃ pr k, multiControlledUnitary mq controlQubits rotQubit u =
          [Action.exchangeStateVectors pr, k] ∧ k.isDistKernel = true) ∧
      (∃ pr k, sigmaX mq rotQubit =
          [Action.exchangeStateVectors pr, k] ∧ k.isDistKernel = true) ∧
      (∃ pr k, sigmaY mq rotQubit =
          [Action.exchangeStateVectors pr, k] ∧ k.isDistKernel = true) ∧
      (∃ pr k, controlledNot mq controlQubit rotQubit =
          [Action.exchangeStateVectors pr, k] ∧ k.isDistKernel = true) ∧
      (∃ pr k, hadamard mq rotQubit =
          [Action.exchangeStateVectors pr, k] ∧ k.isDistKernel = true) ∧
      (∀ a ∈ phaseGate mq rotQubit gateType, a.isExchange = false) ∧
      phaseGate mq rotQubit gateType =
        (if chunkIsUpper mq.chunkId mq.numAmps rotQubit then []
         else [Action.phaseGateDistributed rotQubit gateType])) := by
  have hbound : halfMatrixBlockFitsInChunk (2 ^ (rotQubit + 1)) rotQubit = true := by
    have hlt : (2 : ℕ) ^ rotQubit < 2 ^ (rotQubit + 1) :=
      Nat.pow_lt_pow_right (by norm_num) (Nat.lt_succ_self rotQubit)
    simpa [halfMatrixBlockFitsInChunk] using hlt
  refine ⟨by simp [halfMatrixBlockFitsInChunk], hbound,
    ?_, ?_, ?_, ?_, ?_, ?_, ?_, ?_, ?_, ?_, ?_⟩
  case _ =>
    cases hL : halfMatrixBlockFitsInChunk mq.numAmps rotQubit <;>
      cases hU : chunkIsUpper mq.chunkId mq.numAmps rotQubit <;>
      simp [compactUnitary, hL, hU, Action.isLocalKernel]
  case _ =>
    cases hL : halfMatrixBlockFitsInChunk mq.numAmps rotQubit <;>
      cases hU : chunkIsUpper mq.chunkId mq.numAmps rotQubit <;>
      simp [unitary, hL, hU, Action.isLocalKernel]
  case _ =>
    cases hL : halfMatrixBlockFitsInChunk mq.numAmps rotQubit <;>
      cases hU : chunkIsUpper mq.chunkId mq.numAmps rotQubit <;>
      simp [controlledCompactUnitary, hL, hU, Action.isLocalKernel]
  case _ =>
    cases hL : halfMatrixBlockFitsInChunk mq.numAmps rotQubit <;>
      cases hU : chunkIsUpper mq.chunkId mq.numAmps rotQubit <;>
      simp [controlledUnitary, hL, hU, Action.isLocalKernel]
  case _ =>
    cases hL : halfMatrixBlockFitsInChunk mq.numAmps rotQubit <;>
      cases hU : chunkIsUpper mq.chunkId mq.numAmps rotQubit <;>
      simp [multiControlledUnitary, hL, hU, Action.isLocalKernel]
  case _ =>
    cases hL : halfMatrixBlockFitsInChunk mq.numAmps rotQubit <;>
      cases hU : chunkIsUpper mq.chunkId mq.numAmps rotQubit <;>
      simp [sigmaX, hL, hU, Action.isLocalKernel]
  case _ =>
    cases hL : halfMatrixBlockFitsInChunk mq.numAmps rotQubit <;>
      cases hU : chunkIsUpper mq.chunkId mq.numAmps rotQubit <;>
      simp [sigmaY, hL, hU, Action.isLocalKernel]
  case _ =>
    cases hL : halfMatrixBlockFitsInChunk mq.numAmps rotQubit <;>
      cases hU : chunkIsUpper mq.chunkId mq.numAmps rotQubit <;>
      simp [controlledNot, hL, hU, Action.isLocalKernel]
  case _ =>
    cases hL : halfMatrixBlockFitsInChunk mq.numAmps rotQubit <;>
      cases hU : chunkIsUpper mq.chunkId mq.numAmps rotQubit <;>
      simp [hadamard, hL, hU, Action.isLocalKernel]
  case _ =>
    cases hL : halfMatrixBlockFitsInChunk mq.numAmps rotQubit <;>
      cases hU : chunkIsUpper mq.chunkId mq.numAmps rotQubit <;>
      simp [phaseGate, hL, hU, Action.isLocalKernel]
  case _ =>
    intro hL
    cases hU : chunkIsUpper mq.chunkId mq.numAmps rotQubit
    · exact ⟨
        ⟨getChunkPairId false mq.chunkId mq.numAmps rotQubit,
          Action.compactUnitaryDistributed rotQubit beta alpha
            Buf.pairStateVec Buf.stateVec Buf.stateVec,
          by simp [compactUnitary, hL, hU, getRotAngle], rfl⟩,
        ⟨getChunkPairId false mq.chunkId mq.numAmps rotQubit,
          Action.unitaryDistributed rotQubit u.r1c0 u.r1c1
            Buf.pairStateVec Buf.stateVec Buf.stateVec,
          by simp [unitary, hL, hU, getRotAngleFromUnitaryMatrix], rfl⟩,
        ⟨getChunkPairId false mq.chunkId mq.numAmps rotQubit,
          Action.controlledCompactUnitaryDistributed rotQubit controlQubit beta alpha
            Buf.pairStateVec Buf.stateVec Buf.stateVec,
          by simp [controlledCompactUnitary, hL, hU, getRotAngle], rfl⟩,
        ⟨getChunkPairId false mq.chunkId mq.numAmps rotQubit,
          Action.controlledUnitaryDistributed rotQubit controlQubit u.r1c0 u.r1c1
            Buf.pairStateVec Buf.stateVec Buf.stateVec,
          by simp [controlledUnitary, hL, hU, getRotAngleFromUnitaryMatrix], rfl⟩,
        ⟨getChunkPairId false mq.chunkId mq.numAmps rotQubit,
          Action.multiControlledUnitaryDistributed rotQubit
            (multiControlMask controlQubits) u.r1c0 u.r1c1
            Buf.pairStateVec Buf.stateVec Buf.stateVec,
          by simp [multiControlledUnitary, hL, hU, getRotAngleFromUnitaryMatrix], rfl⟩,
        ⟨getChunkPairId false mq.chunkId mq.numAmps rotQubit,
          Action.sigmaXDistributed rotQubit Buf.pairStateVec Buf.stateVec,
          by simp [sigmaX, hL, hU], rfl⟩,
        ⟨getChunkPairId false mq.chunkId mq.numAmps rotQubit,
          Action.sigmaYDistributed rotQubit Buf.pairStateVec Buf.stateVec false,
          by simp [sigmaY, hL, hU], rfl⟩,
        ⟨getChunkPairId false mq.chunkId mq.numAmps rotQubit,
          Action.controlledNotDistributed controlQubit rotQubit
            Buf.pairStateVec Buf.stateVec,
          by simp [controlledNot, hL, hU], rfl⟩,
        ⟨getChunkPairId false mq.chunkId mq.numAmps rotQubit,
          Action.hadamardDistributed rotQubit
            Buf.pairStateVec Buf.stateVec Buf.stateVec false,
          by simp [hadamard, hL, hU], rfl⟩,
        by simp [phaseGate, hL, hU, Action.isExchange],
        by simp [phaseGate, hL, hU]⟩
    · exact ⟨
        ⟨getChunkPairId true mq.chunkId mq.numAmps rotQubit,
          Action.compactUnitaryDistributed rotQubit alpha
            { real := -beta.real, imag := -beta.imag }
            Buf.stateVec Buf.pairStateVec Buf.stateVec,
          by simp [compactUnitary, hL, hU, getRotAngle], rfl⟩,
        ⟨getChunkPairId true mq.chunkId mq.numAmps rotQubit,
          Action.unitaryDistributed rotQubit u.r0c0 u.r0c1
            Buf.stateVec Buf.pairStateVec Buf.stateVec,
          by simp [unitary, hL, hU, getRotAngleFromUnitaryMatrix], rfl⟩,
        ⟨getChunkPairId true mq.chunkId mq.numAmps rotQubit,
          Action.controlledCompactUnitaryDistributed rotQubit controlQubit alpha
            { real := -beta.real, imag := -beta.imag }
            Buf.stateVec Buf.pairStateVec Buf.stateVec,
          by simp [controlledCompactUnitary, hL, hU, getRotAngle], rfl⟩,
        ⟨getChunkPairId true mq.chunkId mq.numAmps rotQubit,
          Action.controlledUnitaryDistributed rotQubit controlQubit u.r0c0 u.r0c1
            Buf.stateVec Buf.pairStateVec Buf.stateVec,
          by simp [controlledUnitary, hL, hU, getRotAngleFromUnitaryMatrix], rfl⟩,
        ⟨getChunkPairId true mq.chunkId mq.numAmps rotQubit,
          Action.multiControlledUnitaryDistributed rotQubit
            (multiControlMask controlQubits) u.r0c0 u.r0c1
            Buf.stateVec Buf.pairStateVec Buf.stateVec,
          by simp [multiControlledUnitary, hL, hU, getRotAngleFromUnitaryMatrix], rfl⟩,
        ⟨getChunkPairId true mq.chunkId mq.numAmps rotQubit,
          Action.sigmaXDistributed rotQubit Buf.pairStateVec Buf.stateVec,
          by simp [sigmaX, hL, hU], rfl⟩,
        ⟨getChunkPairId true mq.chunkId mq.numAmps rotQubit,
          Action.sigmaYDistributed rotQubit Buf.pairStateVec Buf.stateVec true,
          by simp [sigmaY, hL, hU], rfl⟩,
        ⟨getChunkPairId true mq.chunkId mq.numAmps rotQubit,
          Action.controlledNotDistributed controlQubit rotQubit
            Buf.pairStateVec Buf.stateVec,
          by simp [controlledNot, hL, hU], rfl⟩,
        ⟨getChunkPairId true mq.chunkId mq.numAmps rotQubit,
          Action.hadamardDistributed rotQubit
            Buf.stateVec Buf.pairStateVec Buf.stateVec true,
          by simp [hadamard, hL, hU], rfl⟩,
        by simp [phaseGate, hL, hU, Action.isExchange],
        by simp [phaseGate, hL, hU]⟩

/-- Witness for C2 (amended) at a concrete non-local input. -/
theorem gate_dispatch_local_iff_witness :
    (compactUnitary mq2 1 cA cB).any Action.isLocalKernel = false := by
  have h := gate_dispatch_local_iff mq2 1 0 [] cA cB uX 0
  exact h.2.2.1.trans (by decide)

/-- C6: phaseGate never performs a shard exchange; on the local path the
local kernel handles the shard, and on the non-local path the scalar
multiplier is applied exactly when the shard lies in the lower half
(chunkIsUpper false), while an upper shard leaves the entire state vector
of the worker unchanged. -/
theorem phaseGate_no_exchange_frame (scalarOf : ℕ → Complex) (mq : MultiQubit)
    (rotQubit gateType : ℕ) :
    (∀ a ∈ phaseGate mq rotQubit gateType, a.isExchange = false) ∧
    (halfMatrixBlockFitsInChunk mq.numAmps rotQubit = true →
      phaseGateRun scalarOf mq rotQubit gateType =
        phaseGateLocalRun (scalarOf gateType) mq rotQubit) ∧
    (halfMatrixBlockFitsInChunk mq.numAmps rotQubit = false →
      ((Action.phaseGateDistributed rotQubit gateType ∈
          phaseGate mq rotQubit gateType ↔
        chunkIsUpper mq.chunkId mq.numAmps rotQubit = false) ∧
      (chunkIsUpper mq.chunkId mq.numAmps rotQubit = true →
        phaseGateRun scalarOf mq rotQubit gateType = mq) ∧
      (chunkIsUpper mq.chunkId mq.numAmps rotQubit = false →
        phaseGateRun scalarOf mq rotQubit gateType =
          phaseGateDistributedRun (scalarOf gateType) mq rotQubit))) := by
  refine ⟨?_, ?_, ?_⟩
  · cases hL : halfMatrixBlockFitsInChunk mq.numAmps rotQubit <;>
      cases hU : chunkIsUpper mq.chunkId mq.numAmps rotQubit <;>
      simp [phaseGate, hL, hU, Action.isExchange]
  · intro hL
    simp [phaseGateRun, hL]
  · intro hL
    refine ⟨?_, ?_, ?_⟩
    · cases hU : chunkIsUpper mq.chunkId mq.numAmps rotQubit <;>
        simp [phaseGate, hL, hU]
    · intro hU
      simp [phaseGateRun, hL, hU]
    · intro hU
      simp [phaseGateRun, hL, hU]

/-- Witness for C6 at a concrete non-local upper-shard input: the state of
the worker is untouched. -/
theorem phaseGate_no_exchange_frame_witness :
    phaseGateRun (fun _ => cA) mq2 2 0 = mq2 := by
  have h := phaseGate_no_exchange_frame (fun _ => cA) mq2 2 0
  exact (h.2.2 (by decide)).2.1 (by decide)

/-- C7 counterexample: reading the claimed bit position literally as the
integer quotient q / S fails: for chunk 4, shard size 2 = 2 ^ 1 and
measured qubit 3 (so S is a power of two with S below 2 ^ q), the code
skips the chunk, yet bit 3 / 2 = 1 of the chunk id is clear. -/
theorem isChunkToSkip_bit_index_cex :
    isChunkToSkipInFindPZero 4 2 3 = true ∧
    Nat.testBit 4 (3 / 2) = false ∧
    (2 : ℕ) = 2 ^ 1 ∧ (2 : ℕ) ≤ 2 ^ 3 := by decide

/-- C7 (amended): for every chunk id c, power-of-two shard size 2 ^ s and
measured qubit q with 2 ^ s below or equal to 2 ^ q, the chunk is skipped
exactly when bit q - s of c is set, which is the bit of c selected by the
mask 2 ^ q / 2 ^ s; equivalently, the skip predicate is the negation of
chunkIsUpper, which holds exactly when (c * 2 ^ s) mod 2 ^ (q + 1) is
below 2 ^ q, i.e. when bit q of c * 2 ^ s is clear. -/
theorem isChunkToSkip_characterization (c s q : ℕ) (hsq : s ≤ q) :
    (isChunkToSkipInFindPZero c (2 ^ s) q = true ↔
      Nat.testBit c (q - s) = true) ∧
    (isChunkToSkipInFindPZero c (2 ^ s) q = true ↔
      c &&& 2 ^ q / 2 ^ s ≠ 0) ∧
    isChunkToSkipInFindPZero c (2 ^ s) q = !chunkIsUpper c (2 ^ s) q ∧
    (chunkIsUpper c (2 ^ s) q = true ↔
      Nat.testBit (c * 2 ^ s) q = false) := by
  have hdiv : 2 ^ q / 2 ^ s = 2 ^ (q - s) := Nat.pow_div hsq (by norm_num)
  have hskip : isChunkToSkipInFindPZero c (2 ^ s) q = true ↔
      Nat.testBit c (q - s) = true := by
    unfold isChunkToSkipInFindPZero
    simp only [hdiv, decide_eq_true_eq]
    exact and_two_pow_ne_zero c (q - s)
  have hbit : Nat.testBit (c * 2 ^ s) q = Nat.testBit c (q - s) := by
    rw [Nat.mul_comm, Nat.testBit_mul_pow_two]
    simp [ge_iff_le, hsq]
  have hupper : chunkIsUpper c (2 ^ s) q = true ↔
      Nat.testBit (c * 2 ^ s) q = false := by
    unfold chunkIsUpper
    simp only [decide_eq_true_eq]
    exact mod_double_lt_iff_testBit (c * 2 ^ s) q
  refine ⟨hskip, ?_, ?_, hupper⟩
  · rw [hdiv, hskip]
    exact (and_two_pow_ne_zero c (q - s)).symm
  · cases hc : Nat.testBit c (q - s)
    · have h1 : isChunkToSkipInFindPZero c (2 ^ s) q = false := by
        cases hv : isChunkToSkipInFindPZero c (2 ^ s) q
        · rfl
        · exact absurd (hskip.mp hv) (by simp [hc])
      have h2 : chunkIsUpper c (2 ^ s) q = true :=
        hupper.mpr (hbit.trans hc)
      rw [h1, h2]
      rfl
    · have h1 : isChunkToSkipInFindPZero c (2 ^ s) q = true := hskip.mpr hc
      have h2 : chunkIsUpper c (2 ^ s) q = false := by
        cases hv : chunkIsUpper c (2 ^ s) q
        · rfl
        · exact absurd (hbit.symm.trans (hupper.mp hv)) (by simp [hc])
      rw [h1, h2]
      rfl

/-- Witness for C7 (amended) at the concrete counterexample input. -/
theorem isChunkToSkip_characterization_witness :
    (isChunkToSkipInFindPZero 4 (2 ^ 1) 3 = true ↔
      Nat.testBit 4 (3 - 1) = true) ∧
    (isChunkToSkipInFindPZero 4 (2 ^ 1) 3 = true ↔
      4 &&& 2 ^ 3 / 2 ^ 1 ≠ 0) ∧
    isChunkToSkipInFindPZero 4 (2 ^ 1) 3 = !chunkIsUpper 4 (2 ^ 1) 3 ∧
    (chunkIsUpper 4 (2 ^ 1) 3 = true ↔
      Nat.testBit (4 * 2 ^ 1) 3 = false) :=
  isChunkToSkip_characterization 4 1 3 (by decide)

/-- C3: findProbabilityOfOutcome computes p0 as the all-reduce sum over all
workers of a per-shard contribution that is the upper-half sum of
re^2 + im^2 when the shard exceeds the half block, the whole-shard sum when
the shard is not skipped, and 0 when it is skipped; it returns p0 for
outcome 0 and 1 - p0 for outcome 1. -/
theorem findProbabilityOfOutcome_reduction (chunks : List MultiQubit)
    (measureQubit : ℕ) (mq : MultiQubit) :
    findProbabilityOfOutcome chunks measureQubit 0 =
      (chunks.map (fun c0 => chunkContribution c0 measureQubit)).sum ∧
    findProbabilityOfOutcome chunks measureQubit 1 =
      1 - (chunks.map (fun c0 => chunkContribution c0 measureQubit)).sum ∧
    chunkContribution mq measureQubit =
      (if 2 ^ measureQubit < mq.numAmps then
        ((List.range mq.numAmps).map (fun j =>
          if Nat.testBit (mq.chunkId * mq.numAmps + j) measureQubit = false
          then mq.stateVec.real.getD j 0 ^ 2 + mq.stateVec.imag.getD j 0 ^ 2
          else 0)).sum
      else if isChunkToSkipInFindPZero mq.chunkId mq.numAmps measureQubit then 0
      else ((List.range mq.numAmps).map (fun j =>
        mq.stateVec.real.getD j 0 ^ 2 + mq.stateVec.imag.getD j 0 ^ 2)).sum) := by
  refine ⟨by simp [findProbabilityOfOutcome],
    by simp [findProbabilityOfOutcome], ?_⟩
  by_cases hfit : 2 ^ measureQubit < mq.numAmps
  · have hL : halfMatrixBlockFitsInChunk mq.numAmps measureQubit = true := by
      simp [halfMatrixBlockFitsInChunk, hfit]
    rw [if_pos hfit]
    simp only [chunkContribution, hL, if_true, findProbabilityOfZeroLocal]
    exact sum_map_congr _ _ _ (fun j _ => by
      cases h : Nat.testBit (mq.chunkId * mq.numAmps + j) measureQubit <;> simp [h])
  · have hL : halfMatrixBlockFitsInChunk mq.numAmps measureQubit = false := by
      simp [halfMatrixBlockFitsInChunk, hfit]
    rw [if_neg hfit]
    cases hskip : isChunkToSkipInFindPZero mq.chunkId mq.numAmps measureQubit <;>
      simp [chunkContribution, hL, hskip, findProbabilityOfZeroDistributed]

/-- C4: collapseToOutcome fails fatally with error code 8 exactly when the
probability computed by findProbabilityOfOutcome is not greater than the
tolerance, and on that failure no amplitude of the state has been
modified. -/
theorem collapseToOutcome_error8_iff (eps sqrtProb : ℚ)
    (chunks : List MultiQubit) (measureQubit : ℕ) (outcome : ℤ) :
    ((collapseToOutcome eps sqrtProb chunks measureQubit outcome).2 =
        Except.error 8 ↔
      ¬ eps < findProbabilityOfOutcome chunks measureQubit outcome) ∧
    (¬ eps < findProbabilityOfOutcome chunks measureQubit outcome →
      (collapseToOutcome eps sqrtProb chunks measureQubit outcome).1 = chunks) := by
  unfold collapseToOutcome
  by_cases h : findProbabilityOfOutcome chunks measureQubit outcome > eps
  · simp [h]
  · simp [h]

/-- Witness for C4 at a concrete zero-probability input. -/
theorem collapseToOutcome_error8_iff_witness :
    (collapseToOutcome 0 1 [mqZ] 0 0).2 = Except.error 8 ∧
    (collapseToOutcome 0 1 [mqZ] 0 0).1 = [mqZ] := by
  have h := collapseToOutcome_error8_iff 0 1 [mqZ] 0 0
  have hp : findProbabilityOfOutcome [mqZ] 0 0 = 0 := by
    norm_num [findProbabilityOfOutcome, chunkContribution,
      halfMatrixBlockFitsInChunk, findProbabilityOfZeroLocal, mqZ,
      List.range_succ, Nat.testBit_zero]
  have hnl : ¬ (0 : ℚ) < findProbabilityOfOutcome [mqZ] 0 0 := by
    rw [hp]
    exact lt_irrefl 0
  exact ⟨h.1.mpr hnl, h.2 hnl⟩

/-- C10: for a measured qubit in range and an outcome in 0, 1 whose
probability exceeds the tolerance, collapseToOutcome returns exactly the
value computed by findProbabilityOfOutcome on the pre-collapse state. -/
theorem collapseToOutcome_returns_preprob (eps sqrtProb : ℚ)
    (chunks : List MultiQubit) (measureQubit : ℕ) (outcome : ℤ)
    (hq : ∀ mq ∈ chunks, measureQubit < mq.numQubits)
    (houtcome : outcome = 0 ∨ outcome = 1)
    (hp : eps < findProbabilityOfOutcome chunks measureQubit outcome) :
    (collapseToOutcome eps sqrtProb chunks measureQubit outcome).2 =
      Except.ok (findProbabilityOfOutcome chunks measureQubit outcome) := by
  unfold collapseToOutcome
  simp [hp]

/-- Witness for C10 at a concrete basis state of probability one. -/
theorem collapseToOutcome_returns_preprob_witness :
    (collapseToOutcome (1 / 2) 1 [mq2] 0 0).2 = Except.ok 1 := by
  have hp : findProbabilityOfOutcome [mq2] 0 0 = 1 := by
    norm_num [findProbabilityOfOutcome, chunkContribution,
      halfMatrixBlockFitsInChunk, findProbabilityOfZeroLocal, mq2,
      List.range_succ, Nat.testBit_zero]
  have h := collapseToOutcome_returns_preprob (1 / 2) 1 [mq2] 0 0
    (by decide) (Or.inl rfl) (by rw [hp]; norm_num)
  rw [hp] at h
  exact h

/-- C5: exchangeStateVectors subdivides each component array into messages
of at most maxMessageCount elements, with the cap 2 ^ 29 by default,
2 ^ 28 for an 8-byte real scalar and 2 ^ 27 for a 16-byte one, clamped
down to the shard size when smaller; all sub-messages use the single fixed
tag 100, and for a power-of-two shard the messages exactly cover it:
numMessages times maxMessageCount equals ampsPerChunk. -/
theorem exchangeStateVectors_message_layout (sizeofREAL k : ℕ) :
    maxMessageCountFor sizeofREAL (2 ^ k) =
      min (2 ^ k)
        (if sizeofREAL = 8 then 2 ^ 28
         else if sizeofREAL = 16 then 2 ^ 27 else 2 ^ 29) ∧
    (∀ m ∈ exchangeStateVectorsMessages sizeofREAL (2 ^ k),
      m.count ≤ maxMessageCountFor sizeofREAL (2 ^ k) ∧ m.tag = 100) ∧
    numMessagesFor sizeofREAL (2 ^ k) * maxMessageCountFor sizeofREAL (2 ^ k) =
      2 ^ k := by
  have hone : ∀ n : ℕ, (1 <<< n : ℕ) = 2 ^ n := fun n => Nat.one_shiftLeft n
  refine ⟨?_, ?_, ?_⟩
  · unfold maxMessageCountFor
    by_cases h8 : sizeofREAL = 8
    · simp only [h8, if_true, hone, clamp_eq_min]
    · by_cases h16 : sizeofREAL = 16
      · simp only [h8, h16, if_false, if_true, hone, clamp_eq_min]
      · simp only [h8, h16, if_false, hone, clamp_eq_min]
  · intro m hm
    unfold exchangeStateVectorsMessages at hm
    simp only [List.mem_flatMap, List.mem_range, List.mem_cons,
      List.not_mem_nil, or_false] at hm
    obtain ⟨i, _, hmem⟩ := hm
    rcases hmem with rfl | rfl
    · exact ⟨Nat.le_refl _, rfl⟩
    · exact ⟨Nat.le_refl _, rfl⟩
  · by_cases h8 : sizeofREAL = 8
    · simpa [numMessagesFor, maxMessageCountFor, h8, hone]
        using pow_two_message_cover k 28
    · by_cases h16 : sizeofREAL = 16
      · simpa [numMessagesFor, maxMessageCountFor, h8, h16, hone]
          using pow_two_message_cover k 27
      · simpa [numMessagesFor, maxMessageCountFor, h8, h16, hone]
          using pow_two_message_cover k 29

/-- Witness for C5 at an 8-byte scalar and a shard of 2 ^ 30 amplitudes. -/
theorem exchangeStateVectors_message_layout_witness :
    numMessagesFor 8 (2 ^ 30) * maxMessageCountFor 8 (2 ^ 30) = 2 ^ 30 :=
  (exchangeStateVectors_message_layout 8 30).2.2

/-- C9: initQuESTEnv initializes the transport when it is not already
initialized and populates the handle with the rank and number of workers;
when the transport is already initialized, the call is a non-fatal warning
and both the transport and the handle are left untouched. -/
theorem initQuESTEnv_spec (mpi : MPIState) (env : QuESTEnv) :
    (mpi.initialized = false →
      initQuESTEnv mpi env =
        ({ mpi with initialized := true },
         { rank := mpi.rank, numRanks := mpi.numRanks }, false)) ∧
    (mpi.initialized = true →
      initQuESTEnv mpi env = (mpi, env, true)) := by
  constructor <;> intro h <;> simp [initQuESTEnv, h]

/-- Witness for C9 on a concrete fresh and a concrete initialized transport. -/
theorem initQuESTEnv_spec_witness :
    initQuESTEnv { initialized := false, rank := 3, numRanks := 4 }
        { rank := 0, numRanks := 0 } =
      ({ initialized := true, rank := 3, numRanks := 4 },
       { rank := 3, numRanks := 4 }, false) ∧
    initQuESTEnv { initialized := true, rank := 3, numRanks := 4 }
        { rank := 7, numRanks := 9 } =
      ({ initialized := true, rank := 3, numRanks := 4 },
       { rank := 7, numRanks := 9 }, true) :=
  ⟨(initQuESTEnv_spec _ _).1 rfl, (initQuESTEnv_spec _ _).2 rfl⟩

end QuEST
